import Mathlib

/-!
Shallow embedding of the `z-autocomplete` web component
(`src/src/z-autocomplete.ts`, the shadow-DOM version of the class, whose
line numbers the claims cite: `open` setter at 356-366, `value` setter at
371-404, `options` setter at 409-413, `disconnectedCallback` at 444-456,
`_onClear` at 519-523, `_onInput` at 562-573, `_onInputChange` at 575-578,
`_navigateToOption` at 586-611, `debounce` at 315-325).

DOM-only effects (ARIA attributes, scrolling, focus, rendering) are not part
of the state; everything that the claims talk about — the option list, the
open flag, the active option index, the committed value, the input field's
text, the abort-controller generations, the pending debounce timer, the
dispatched `autocomplete` events and the `fetchData` invocations — is.

JavaScript `undefined`/`null` values are modelled with `Option`;
`AbortController` instances are modelled by a generation counter: creating a
controller allocates a fresh generation, `abort(reason)` appends the current
generation to the list of aborted generations.  The host's veto of the
cancelable `autocomplete` event (`preventDefault`) is an input of the model
(the `vetoed` argument).
-/

namespace ZAuto

/-- `ZAutocompleteOption` (source lines 298-313): `label` (kept textual; a
rich-content label only contributes its text content), optional `inputValue`,
the underlying `value` (absent for value-less disabled options), `disabled`. -/
structure Opt (V : Type) where
  label : String
  value : Option V
  inputValue : Option String
  disabled : Bool
deriving DecidableEq, Repr

/-- A default element used only to totalise list indexing (`List.getD`); every
access is guarded by a bounds check taken from the source. -/
def optDefault (V : Type) : Opt V := ⟨"", none, none, false⟩

/-- The widget's state.  `openFlag` is `_open`, `activeOptionIndex` is
`_activeOptionIndex`, `ctrl` is the generation of the current
`_abortController` (`none` before the first fetch), `nextGen` the next fresh
generation, `aborted` the generations on which `abort` was called,
`pendingTimer` whether the debounce closure has an armed timer,
`connected` whether the element is attached, `events` the log of dispatched
`autocomplete` event details, and `fetchCalls` the log of `fetchData`
invocations (query text and the generation of the signal passed). -/
structure Widget (V : Type) where
  inputValue : String
  value : Option V
  options : List (Opt V)
  openFlag : Bool
  activeOptionIndex : Int
  ctrl : Option Nat
  nextGen : Nat
  aborted : List Nat
  pendingTimer : Bool
  connected : Bool
  events : List (Option V)
  fetchCalls : List (String × Option Nat)
deriving DecidableEq, Repr

/-- Initial state: empty field, no value, empty closed list, active index -1,
no abort controller, no timer, attached. -/
def initSt (V : Type) : Widget V :=
  ⟨"", none, [], false, -1, none, 0, [], false, true, [], []⟩

/-- The `open` setter (lines 356-366): `_open = val && !!this.options.length`;
when the result is closed, `_activeOptionIndex` is reset to `-1` (and the list
scrolled to the top, a DOM effect). -/
def setOpen {V : Type} (st : Widget V) (val : Bool) : Widget V :=
  let o := val && !st.options.isEmpty
  if o then { st with openFlag := true }
  else { st with openFlag := false, activeOptionIndex := -1 }

/-- The `options` setter (lines 409-413): store `val.filter(Boolean)` — the
incoming array may hold falsy (null/undefined) entries, modelled as `none` —
then `this.open = !!val.length` (the pre-filter length). -/
def setOptions {V : Type} (st : Widget V) (val : List (Option (Opt V))) : Widget V :=
  let st1 := { st with options := val.filterMap id }
  setOpen st1 (!val.isEmpty)

/-- The display text the `value` setter puts into the bound field
(lines 389-394): a truthy `inputValue` wins, else a textual `label`, else
the empty string.  (`inputValue = some ""` is falsy in JS and falls through
to the label branch.) -/
def displayText {V : Type} (o : Option (Opt V)) : String :=
  match o with
  | none => ""
  | some opt =>
    match opt.inputValue with
    | some iv => if iv = "" then opt.label else iv
    | none => opt.label

/-- The `value` setter (lines 371-404).  It always constructs and dispatches
one cancelable `autocomplete` event carrying the candidate value — there is
no comparison with the current value.  Then (after `updateComplete`): if the
host did not call `preventDefault`, `_value = val` and the field text is
derived through `dataToOption`; if it did, `_value = undefined` and the field
is cleared.  Either way `this.options = []` runs last (which closes the list
and resets the active index through the `open` setter). -/
def setValue {V : Type} (d2o : Option V → Option (Opt V)) (st : Widget V)
    (val : Option V) (vetoed : Bool) : Widget V :=
  let st1 := { st with events := st.events ++ [val] }
  let st2 :=
    if vetoed then { st1 with value := none, inputValue := "" }
    else { st1 with value := val, inputValue := displayText (d2o val) }
  setOptions st2 []

/-- `_abortController?.abort(reason)` : marks the current generation aborted
(the controller object itself remains). -/
def abortCtrl {V : Type} (st : Widget V) : Widget V :=
  match st.ctrl with
  | some g => { st with aborted := st.aborted ++ [g] }
  | none => st

/-- `_onClear` (lines 519-523): abort any in-flight fetch with a reason, then
`this.value = undefined` (the focus call is a DOM effect). -/
def onClear {V : Type} (d2o : Option V → Option (Opt V)) (st : Widget V)
    (vetoed : Bool) : Widget V :=
  setValue d2o (abortCtrl st) none vetoed

/-- `_onInput` (lines 562-573), run after the input event set the field text
to `text`: `this.options = []`; if the field is empty, `return this._onClear()`;
otherwise abort the previous controller, create a fresh one, and invoke the
debounced `_onInputChange` (which arms the trailing timer). -/
def onInput {V : Type} (d2o : Option V → Option (Opt V)) (st : Widget V)
    (text : String) (vetoed : Bool) : Widget V :=
  let st1 := setOptions { st with inputValue := text } []
  if st1.inputValue = "" then onClear d2o st1 vetoed
  else
    let st2 := abortCtrl st1
    let st3 := { st2 with ctrl := some st2.nextGen, nextGen := st2.nextGen + 1 }
    { st3 with pendingTimer := true }

/-- The armed debounce timer fires: the wrapped `_onInputChange` (lines
575-578) runs unconditionally — neither the closure returned by `debounce`
(lines 315-325) nor `_onInputChange` consults whether the element is still
connected — and calls `this.fetchData(this._inputEl.value,
this._abortController?.signal)`. -/
def timerFire {V : Type} (st : Widget V) : Widget V :=
  if st.pendingTimer then
    { st with pendingTimer := false, fetchCalls := st.fetchCalls ++ [(st.inputValue, st.ctrl)] }
  else st

/-- A pending `fetchData` promise fulfills with `data` for the fetch that held
the signal of generation `gen`: `_onInputChange` (lines 576-577) then runs
`this.options = data.map(this.dataToOption.bind(this))`.  The source performs
no check of the signal after the `await`, so `gen` is not consulted. -/
def resolveFetch {V : Type} (d2o : Option V → Option (Opt V)) (st : Widget V)
    (_gen : Nat) (data : List (Option V)) : Widget V :=
  setOptions st (data.map d2o)

/-- `disconnectedCallback` (lines 444-456): abort any in-flight fetch, remove
the listeners (the element is detached).  The body contains no `clearTimeout`:
the debounce closure's armed timer is left untouched. -/
def disconnected {V : Type} (st : Widget V) : Widget V :=
  { abortCtrl st with connected := false }

/-- `_selectOption` (lines 580-584): no-op when the option is absent or
disabled, otherwise `this.value = option.value`. -/
def selectOption {V : Type} (d2o : Option V → Option (Opt V)) (st : Widget V)
    (o : Option (Opt V)) (vetoed : Bool) : Widget V :=
  match o with
  | none => st
  | some opt => if opt.disabled then st else setValue d2o st opt.value vetoed

/-- `_navigateToOption` (lines 586-611), as a function from the option list,
the current `_activeOptionIndex` and the requested index to the new active
index.  Guards: negative target, target equal to the current index, or target
past the end are no-ops.  A disabled target retargets: `offset = newIndex -
activeIndex`, widened by one away from zero, and the call recurses on
`activeIndex + offset`.  Otherwise the target becomes the active index. -/
def navigateToOption {V : Type} (opts : List (Opt V)) (active newIndex : Int) : Int :=
  if newIndex < 0 then active
  else if newIndex = active then active
  else if newIndex > (opts.length : Int) - 1 then active
  else if (opts.getD newIndex.toNat (optDefault V)).disabled then
    let off0 := newIndex - active
    let off := if off0 > 0 then off0 + 1 else off0 - 1
    navigateToOption opts active (active + off)
  else newIndex
termination_by (opts.length + active.natAbs + 2) - (newIndex - active).natAbs
decreasing_by
  simp only [not_lt] at *
  split <;> omega

/-- The state-level navigation step (the highlight bookkeeping of lines
602-610 is a DOM effect; the state change is the new active index). -/
def navigate {V : Type} (st : Widget V) (newIndex : Int) : Widget V :=
  { st with activeOptionIndex := navigateToOption st.options st.activeOptionIndex newIndex }

/-- `this.options[i]` for a possibly negative JS index: `undefined` out of
range. -/
def optionAt {V : Type} (opts : List (Opt V)) (i : Int) : Option (Opt V) :=
  if i < 0 then none else opts.get? i.toNat

/-- `_onKeydown` (lines 535-560): inert while the list is empty or closed;
ArrowDown/ArrowUp navigate, Enter selects the option at the active index,
Escape closes. -/
def onKeydown {V : Type} (d2o : Option V → Option (Opt V)) (st : Widget V)
    (key : String) (vetoed : Bool) : Widget V :=
  if st.options.isEmpty || !st.openFlag then st
  else if key = "ArrowDown" then navigate st (st.activeOptionIndex + 1)
  else if key = "ArrowUp" then navigate st (st.activeOptionIndex - 1)
  else if key = "Enter" then selectOption d2o st (optionAt st.options st.activeOptionIndex) vetoed
  else if key = "Escape" then setOpen st false
  else st

/-- The default `dataToOption` (lines 624-631): `undefined` maps to
`undefined`, anything else to `{ label: String(data), value: data }`. -/
def dataToOptionDefault {V : Type} [ToString V] (data : Option V) : Option (Opt V) :=
  match data with
  | none => none
  | some d => some ⟨toString d, some d, none, false⟩

/-- The externally observable events that drive the widget between renders:
an input event that sets the field text, the debounce timer firing, a pending
`fetchData` promise fulfilling (tagged with the generation of the signal it
was handed), and detachment from the document. -/
inductive Ev (V : Type) where
  | input (text : String) (vetoed : Bool)
  | timer
  | resolve (gen : Nat) (data : List (Option V))
  | disconnect
deriving DecidableEq, Repr

/-- One event step of the widget. -/
def step {V : Type} (d2o : Option V → Option (Opt V)) (st : Widget V) : Ev V → Widget V
  | .input t v => onInput d2o st t v
  | .timer => timerFire st
  | .resolve g data => resolveFetch d2o st g data
  | .disconnect => disconnected st

/-- Run a list of events from a state. -/
def run {V : Type} (d2o : Option V → Option (Opt V)) (st : Widget V)
    (es : List (Ev V)) : Widget V :=
  es.foldl (step d2o) st

/-- Trace semantics of the `debounce` utility (lines 315-325) under the
single-threaded timer model: the closure holds at most one armed timer.  The
input is the chronological list of triggers, each with its arrival time and
the field text at that moment; the output is the list of invocations of the
wrapped callback, each with its fire time and the field text it reads
(`_onInputChange` reads `this._inputEl.value` when it runs, which is the text
of the last trigger, no input having occurred between that trigger and the
fire).  A trigger arriving before the armed timer's fire time is a
`clearTimeout` of a still-pending timer (the previous invocation is
cancelled); otherwise the armed timer already fired.  The last armed timer
always fires. -/
def debounceRun {A : Type} (delay : Nat) : List (Nat × A) → List (Nat × A)
  | [] => []
  | [(t, v)] => [(t + delay, v)]
  | (t, v) :: (t2, v2) :: rest =>
    if t2 < t + delay then debounceRun delay ((t2, v2) :: rest)
    else (t + delay, v) :: debounceRun delay ((t2, v2) :: rest)

/-- Every trigger of the sequence (after the first) arrives strictly before
the previous trigger's timer fires: the whole sequence falls in one debounce
window. -/
def withinWindow {A : Type} (delay : Nat) : List (Nat × A) → Bool
  | [] => true
  | [_] => true
  | (t, _) :: (t2, v2) :: rest =>
    decide (t2 < t + delay) && withinWindow delay ((t2, v2) :: rest)

/-- The active-index invariant claimed by the spec: `_activeOptionIndex` is
`-1` or a valid index of a non-disabled option of the current list. -/
def invActive {V : Type} (st : Widget V) : Prop :=
  st.activeOptionIndex = -1 ∨
  (0 ≤ st.activeOptionIndex ∧ st.activeOptionIndex < (st.options.length : Int) ∧
   (st.options.getD st.activeOptionIndex.toNat (optDefault V)).disabled = false)

instance {V : Type} (st : Widget V) : Decidable (invActive st) := by
  unfold invActive
  infer_instance

/-- A non-disabled option with an integer value, for concrete scenarios. -/
def enOpt (s : String) (n : Int) : Opt Int := ⟨s, some n, none, false⟩

/-- A disabled option, for concrete scenarios. -/
def disOpt (s : String) : Opt Int := ⟨s, none, none, true⟩

/-- A reachable state with three non-disabled options open and the third one
highlighted (e.g. after a fetch resolved with three options and the user
pressed ArrowDown three times). -/
def c7St : Widget Int :=
  { initSt Int with
    options := [enOpt "a" 1, enOpt "b" 2, enOpt "c" 3],
    openFlag := true,
    activeOptionIndex := 2 }

/-- Overlapping-fetch scenario: type "a" (fetch A gets the signal of
generation 0), timer fires, type "ab" (generation 0 is aborted, fetch B gets
generation 1), timer fires, B's promise fulfills with `[2]`. -/
def c1Trace : List (Ev Int) :=
  [.input "a" false, .timer, .input "ab" false, .timer, .resolve 1 [some 2]]

/-- Teardown scenario: type "a" (arming the debounce timer), then disconnect
the element before the delay elapses. -/
def c4Trace : List (Ev Int) := [.input "a" false, .disconnect]

/-! ## Navigation lemmas -/

/-- The three no-op guards of `_navigateToOption` (lines 587-589). -/
theorem nav_oob {V : Type} (opts : List (Opt V)) (active x : Int)
    (h : x < 0 ∨ x = active ∨ x > (opts.length : Int) - 1) :
    navigateToOption opts active x = active := by
  rw [navigateToOption.eq_def]
  rcases h with h | h | h
  · simp [h]
  · simp [h]
  · by_cases h1 : x < 0
    · simp [h1]
    · by_cases h2 : x = active
      · simp [h2]
      · simp [h1, h2, h]

/-- The disabled-retarget step of `_navigateToOption` (lines 592-600). -/
theorem nav_disabled_step {V : Type} (opts : List (Opt V)) (active x : Int)
    (h1 : ¬x < 0) (h2 : x ≠ active) (h3 : ¬x > (opts.length : Int) - 1)
    (h4 : (opts.getD x.toNat (optDefault V)).disabled = true) :
    navigateToOption opts active x =
      navigateToOption opts active
        (active + if x - active > 0 then x - active + 1 else x - active - 1) := by
  rw [navigateToOption.eq_def]
  simp only [h1, h2, h3, h4, if_false, if_true, ite_true, ite_false]

/-- The commit case of `_navigateToOption` (line 602): an in-range,
non-disabled target distinct from the current index becomes the new index. -/
theorem nav_enabled {V : Type} (opts : List (Opt V)) (active x : Int)
    (h1 : ¬x < 0) (h2 : x ≠ active) (h3 : ¬x > (opts.length : Int) - 1)
    (h4 : (opts.getD x.toNat (optDefault V)).disabled = false) :
    navigateToOption opts active x = x := by
  rw [navigateToOption.eq_def]
  simp only [h1, h2, h3, h4, if_false, if_true, ite_true, ite_false]
  simp

/-- On a list all of whose options are disabled, `_navigateToOption` returns
the unchanged active index for every target. -/
theorem navigateToOption_all_disabled {V : Type} (opts : List (Opt V))
    (h : ∀ o ∈ opts, o.disabled = true) (active target : Int) :
    navigateToOption opts active target = active := by
  induction target using navigateToOption.induct opts active with
  | case1 x hx => exact nav_oob _ _ _ (Or.inl hx)
  | case2 hx => exact nav_oob _ _ _ (Or.inr (Or.inl rfl))
  | case3 x h1 h2 h3 => exact nav_oob _ _ _ (Or.inr (Or.inr h3))
  | case4 x h1 h2 h3 h4 o1 o2 ih =>
    rw [nav_disabled_step opts active x h1 h2 h3 h4]
    exact ih
  | case5 x h1 h2 h3 h4 =>
    exfalso
    have hlen : x.toNat < opts.length := by omega
    have hmem : opts.getD x.toNat (optDefault V) ∈ opts := by
      rw [List.getD_eq_getElem?_getD, List.getElem?_eq_getElem hlen]
      exact List.getElem_mem hlen
    exact h4 (h _ hmem)

/-- `_navigateToOption` either leaves the active index unchanged or returns a
valid index of a non-disabled option. -/
theorem nav_result {V : Type} (opts : List (Opt V)) (active target : Int) :
    navigateToOption opts active target = active ∨
    (0 ≤ navigateToOption opts active target ∧
     navigateToOption opts active target < (opts.length : Int) ∧
     (opts.getD (navigateToOption opts active target).toNat (optDefault V)).disabled = false) := by
  induction target using navigateToOption.induct opts active with
  | case1 x hx => exact Or.inl (nav_oob _ _ _ (Or.inl hx))
  | case2 hx => exact Or.inl (nav_oob _ _ _ (Or.inr (Or.inl rfl)))
  | case3 x h1 h2 h3 => exact Or.inl (nav_oob _ _ _ (Or.inr (Or.inr h3)))
  | case4 x h1 h2 h3 h4 o1 o2 ih =>
    rw [nav_disabled_step opts active x h1 h2 h3 h4]
    exact ih
  | case5 x h1 h2 h3 h4 =>
    right
    rw [nav_enabled opts active x h1 h2 h3 (by simpa using h4)]
    refine ⟨by omega, by omega, by simpa using h4⟩

/-- Walking the disabled prefix: with the first `K` options disabled and the
option at `K` enabled, navigating from `-1` to any `j ≤ K` lands on `K`. -/
theorem nav_prefix_aux {V : Type} (opts : List (Opt V)) (K : Nat)
    (hKlen : K < opts.length)
    (hdis : ∀ i : Nat, i < K → (opts.getD i (optDefault V)).disabled = true)
    (henK : (opts.getD K (optDefault V)).disabled = false) :
    ∀ m j : Nat, j ≤ K → K - j = m → navigateToOption opts (-1) (j : Int) = K := by
  intro m
  induction m with
  | zero =>
    intro j hj hm
    have hjK : j = K := by omega
    subst hjK
    rw [nav_enabled opts (-1) (j : Int) (by omega) (by omega) (by omega)
      (by simpa using henK)]
  | succ n ih =>
    intro j hj hm
    have hjK : j < K := by omega
    have hdisj : (opts.getD ((j : Int)).toNat (optDefault V)).disabled = true := by
      simpa using hdis j hjK
    rw [nav_disabled_step opts (-1) (j : Int) (by omega) (by omega) (by omega) hdisj]
    have harg : (-1 : Int) + (if (j : Int) - (-1) > 0 then (j : Int) - (-1) + 1
        else (j : Int) - (-1) - 1) = ((j + 1 : Nat) : Int) := by
      rw [if_pos (by omega)]
      push_cast
      ring
    rw [harg]
    exact ih (j + 1) (by omega) (by omega)

/-! ## Claim theorems -/

/-- Claim C3: for an option list whose first `K` options are disabled and
whose remaining options are not (`0 < K < length`), navigating forward from
active index "none" (`navigateTo` with target `0`) lands the active index
exactly on `K`: the recursion widens the offset one step per disabled option
in the direction of travel and never stops on `0..K-1`. -/
theorem c3_forward_skips_disabled_prefix {V : Type} (st : Widget V) (K : Nat)
    (hactive : st.activeOptionIndex = -1) (hK : 0 < K)
    (hKlen : K < st.options.length)
    (hdis : ∀ i : Nat, i < K → (st.options.getD i (optDefault V)).disabled = true)
    (hen : ∀ i : Nat, i < st.options.length → K ≤ i →
      (st.options.getD i (optDefault V)).disabled = false) :
    (navigate st 0).activeOptionIndex = (K : Int) := by
  have henK := hen K hKlen (le_refl K)
  have h0 := nav_prefix_aux st.options K hKlen hdis henK K 0 (by omega) (by omega)
  simpa [navigate, hactive] using h0

/-- A list whose first two options are disabled and whose third is not, with
the list open and no highlight. -/
def c3St : Widget Int :=
  { initSt Int with options := [disOpt "x", disOpt "y", enOpt "c" 3], openFlag := true }

/-- Witness for C3: on `c3St` (first `K = 2` options disabled), navigating to
target `0` from "none" lands on index `2`. -/
theorem c3_forward_skips_disabled_prefix_witness :
    (navigate c3St 0).activeOptionIndex = ((2 : Nat) : Int) :=
  c3_forward_skips_disabled_prefix c3St 2 (by decide) (by decide) (by decide)
    (by decide) (by decide)

/-- Claim C8: on a list in which every option is disabled, the recursive
disabled-skip navigation terminates (the Lean function is total by a
well-founded measure mirroring the bound guards) and, since no non-disabled
option exists in the direction of travel, the recursion runs off the end of
the list, the guards halt it, and the state is unchanged. -/
theorem c8_all_disabled_navigation_no_op {V : Type} (st : Widget V)
    (h : ∀ o ∈ st.options, o.disabled = true) (target : Int) :
    navigate st target = st := by
  have h0 := navigateToOption_all_disabled st.options h st.activeOptionIndex target
  simp [navigate, h0]

/-- A fully disabled two-option list, open, no highlight. -/
def c8St : Widget Int :=
  { initSt Int with options := [disOpt "x", disOpt "y"], openFlag := true }

/-- Witness for C8: navigating anywhere on the all-disabled `c8St` leaves the
state unchanged. -/
theorem c8_all_disabled_navigation_no_op_witness :
    navigate c8St 0 = c8St :=
  c8_all_disabled_navigation_no_op c8St (by decide) 0

/-- Claim C7, counterexample: the active-index invariant is NOT preserved by
every operation.  `c7St` satisfies the invariant (three non-disabled options,
index 2), but assigning a non-empty one-element option list through the
`options` setter (lines 409-413) leaves the stale index 2 in place — the
`open` setter only resets the index when the result is closed — so the index
is out of range of the new list. -/
theorem c7_active_index_invariant_counterexample :
    invActive c7St ∧ ¬ invActive (setOptions c7St [some (enOpt "d" 4)]) := by
  decide

/-- Claim C7, amended: the active option index is always `-1` or a valid
index of a non-disabled option under navigation, opening/closing, value
assignment, selection and clearing, and navigation never changes the index to
`-1`; the `options` setter, however, preserves the invariant only when the
resulting list is closed (it resets the index to `-1` exactly then), and
retains the previous index unchanged whenever the new list opens, which can
leave the index out of range or on a disabled option. -/
theorem c7_active_index_invariant_amended {V : Type}
    (d2o : Option V → Option (Opt V)) :
    (∀ (st : Widget V) (i : Int), invActive st → invActive (navigate st i)) ∧
    (∀ (st : Widget V) (i : Int),
      (navigate st i).activeOptionIndex = st.activeOptionIndex ∨
      (0 ≤ (navigate st i).activeOptionIndex ∧
       (navigate st i).activeOptionIndex < (st.options.length : Int) ∧
       (st.options.getD (navigate st i).activeOptionIndex.toNat
         (optDefault V)).disabled = false)) ∧
    (∀ (st : Widget V) (b : Bool), invActive st → invActive (setOpen st b)) ∧
    (∀ (st : Widget V) (v : Option V) (vetoed : Bool),
      invActive (setValue d2o st v vetoed)) ∧
    (∀ (st : Widget V) (vetoed : Bool), invActive (onClear d2o st vetoed)) ∧
    (∀ (st : Widget V) (o : Option (Opt V)) (vetoed : Bool),
      invActive st → invActive (selectOption d2o st o vetoed)) ∧
    (∀ (st : Widget V), invActive (setOptions st [])) ∧
    (∀ (st : Widget V) (val : List (Option (Opt V))),
      (setOptions st val).activeOptionIndex =
        if (setOptions st val).openFlag then st.activeOptionIndex else -1) := by
  have hempty : ∀ (st : Widget V), invActive (setOptions st []) := by
    intro st
    left
    simp [setOptions, setOpen]
  have hvalue : ∀ (st : Widget V) (v : Option V) (vetoed : Bool),
      invActive (setValue d2o st v vetoed) := by
    intro st v vetoed
    left
    cases vetoed <;> simp [setValue, setOptions, setOpen]
  refine ⟨?_, ?_, ?_, hvalue, ?_, ?_, hempty, ?_⟩
  · intro st i h
    rcases nav_result st.options st.activeOptionIndex i with h0 | h0
    · unfold invActive at h ⊢
      simpa [navigate, h0] using h
    · right
      simpa [navigate] using h0
  · intro st i
    simpa [navigate] using nav_result st.options st.activeOptionIndex i
  · intro st b h
    unfold setOpen
    dsimp only
    split
    · unfold invActive at h ⊢
      simpa using h
    · left
      rfl
  · intro st vetoed
    exact hvalue _ none vetoed
  · intro st o vetoed h
    match o with
    | none => exact h
    | some opt =>
      unfold selectOption
      dsimp only
      split
      · exact h
      · exact hvalue _ opt.value vetoed
  · intro st val
    unfold setOptions setOpen
    dsimp only
    split <;> rfl

/-- Witness for the amended C7: navigation from `c7St` preserves the
invariant. -/
theorem c7_active_index_invariant_amended_witness :
    invActive (navigate c7St 1) :=
  (c7_active_index_invariant_amended (V := Int) dataToOptionDefault).1 c7St 1
    (by decide)

/-- Claim C2: assigning `x` through the `value` setter and then reading the
committed value yields exactly `x` when the host did not cancel the
dispatched `autocomplete` event; when the host cancelled it, the committed
value is `undefined` and the bound field's text is cleared, whichever `x` was
proposed. -/
theorem c2_value_roundtrip {V : Type} (d2o : Option V → Option (Opt V))
    (st : Widget V) (x : V) :
    (setValue d2o st (some x) false).value = some x ∧
    (setValue d2o st (some x) true).value = none ∧
    (setValue d2o st (some x) true).inputValue = "" := by
  refine ⟨?_, ?_, ?_⟩ <;> simp [setValue, setOptions, setOpen]

/-- Claim C9: the `options` setter stores the input with falsy entries
removed, and afterwards the list is open iff the pre-filter input was
non-empty and (through the derived open state) the stored post-filter list is
non-empty. -/
theorem c9_options_setter_filter_and_open {V : Type} (st : Widget V)
    (val : List (Option (Opt V))) :
    (setOptions st val).options = val.filterMap id ∧
    (setOptions st val).openFlag = (!val.isEmpty && !(val.filterMap id).isEmpty) := by
  constructor
  · simp [setOptions, setOpen]
    split <;> rfl
  · simp only [setOptions, setOpen]
    split
    · rename_i h
      simpa using h.symm
    · rename_i h
      simpa using fun hv => by simpa [hv] using h

/-- Claim C10: every assignment through the `value` setter dispatches exactly
one `autocomplete` event carrying the assigned detail — also when the
assigned value equals the current committed value (there is no change
detection), and a vetoed assignment's rollback to `undefined` writes the
backing field directly and dispatches nothing further. -/
theorem c10_one_event_per_assignment {V : Type} (d2o : Option V → Option (Opt V))
    (st : Widget V) (val : Option V) (vetoed : Bool) :
    (setValue d2o st val vetoed).events = st.events ++ [val] := by
  cases vetoed <;> simp [setValue, setOptions, setOpen]

/-- Claim C6: an input event with an empty field text schedules no debounce
trigger (the pending-timer flag is untouched) and creates no new cancellation
token (`ctrl` and the generation counter are untouched); the option list is
immediately emptied and closed, the current controller — when one exists — is
aborted, and the committed value ends up `undefined` through the clear path,
whether or not the host vetoes the resulting `autocomplete` event. -/
theorem c6_empty_input_clears {V : Type} (d2o : Option V → Option (Opt V))
    (st : Widget V) (vetoed : Bool) :
    (onInput d2o st "" vetoed).pendingTimer = st.pendingTimer ∧
    (onInput d2o st "" vetoed).ctrl = st.ctrl ∧
    (onInput d2o st "" vetoed).nextGen = st.nextGen ∧
    (onInput d2o st "" vetoed).options = [] ∧
    (onInput d2o st "" vetoed).openFlag = false ∧
    (onInput d2o st "" vetoed).value = none ∧
    (onInput d2o st "" vetoed).aborted = st.aborted ++ st.ctrl.toList := by
  cases hc : st.ctrl <;> cases vetoed <;>
    simp [onInput, onClear, setValue, setOptions, setOpen, abortCtrl, hc]

/-- Claim C5: the debounce utility collapses every sequence of triggers that
fall within one debounce window (each trigger arriving strictly before the
previous trigger's armed timer fires, so each new trigger cancels the
previously armed invocation and arms a new trailing one) into exactly one
invocation, carrying the field text of the last trigger of the sequence. -/
theorem c5_debounce_single_trailing_invocation {A : Type} (delay : Nat)
    (es : List (Nat × A)) (tl : Nat) (vl : A)
    (hw : withinWindow delay es = true) (hlast : es.getLast? = some (tl, vl)) :
    debounceRun delay es = [(tl + delay, vl)] := by
  induction es with
  | nil => simp at hlast
  | cons e rest ih =>
    cases rest with
    | nil =>
      obtain ⟨t, v⟩ := e
      simp only [List.getLast?_singleton, Option.some.injEq, Prod.mk.injEq] at hlast
      simp [debounceRun, hlast.1, hlast.2]
    | cons e2 rest2 =>
      obtain ⟨t, v⟩ := e
      obtain ⟨t2, v2⟩ := e2
      rw [List.getLast?_cons_cons] at hlast
      simp only [withinWindow, Bool.and_eq_true, decide_eq_true_eq] at hw
      rw [show debounceRun delay ((t, v) :: (t2, v2) :: rest2) =
          if t2 < t + delay then debounceRun delay ((t2, v2) :: rest2)
          else (t + delay, v) :: debounceRun delay ((t2, v2) :: rest2) from rfl]
      rw [if_pos hw.1]
      exact ih hw.2 hlast

/-- Witness for C5: triggers at times 0 ("ab") and 100 ("abc") with a 300
delay collapse to the single invocation at time 400 carrying "abc". -/
theorem c5_debounce_single_trailing_invocation_witness :
    debounceRun 300 [(0, "ab"), (100, "abc")] = [(100 + 300, "abc")] :=
  c5_debounce_single_trailing_invocation 300 [(0, "ab"), (100, "abc")] 100 "abc"
    (by decide) (by decide)

/-- Claim C1 fails on the code: `_onInputChange` (lines 575-578) performs no
check of the abort signal after its `await`, so when an already-superseded
fetch's promise fulfills late, its mapped results replace the option list.
After `c1Trace` (fetch A holds signal generation 0, fetch B generation 1,
generation 0 aborted, B resolved with `[2]`), the late fulfillment of A with
`[1]` overwrites B's results with A's — the coordinator applied, not
discarded, the cancelled fetch's result. -/
theorem c1_stale_resolution_replaces_options :
    (run dataToOptionDefault (initSt Int) c1Trace).options
      = [⟨"2", some 2, none, false⟩] ∧
    (0 : Nat) ∈ (run dataToOptionDefault (initSt Int) c1Trace).aborted ∧
    (resolveFetch dataToOptionDefault (run dataToOptionDefault (initSt Int) c1Trace)
        0 [some 1]).options = [⟨"1", some 1, none, false⟩] := by
  decide

/-- Claim C4 fails on the code: `disconnectedCallback` (lines 444-456)
contains no `clearTimeout`, so after `c4Trace` (input "a" arms the debounce
timer, then the element is disconnected) the timer is still pending, and when
it fires it invokes `fetchData` with the field text "a" and the (aborted)
signal of generation 0 — the trigger is not a no-op and teardown left a timer
pending. -/
theorem c4_pending_timer_fires_after_teardown :
    (run dataToOptionDefault (initSt Int) c4Trace).connected = false ∧
    (run dataToOptionDefault (initSt Int) c4Trace).pendingTimer = true ∧
    (timerFire (run dataToOptionDefault (initSt Int) c4Trace)).fetchCalls
      = [("a", some 0)] := by
  decide

end ZAuto
